import Mathlib

set_option linter.unusedVariables false

/-!
Verification development for the Automated Data Reconciliation System
(src/main.py).  The pipeline loads two tabular record sets (an internal
sales ledger from a database and an external payment-processor report from
a CSV file), normalizes their column names and date columns, performs a
full outer join on a transaction key, and partitions the joined rows into
discrepancy buckets.

The embedding below models a pandas DataFrame as a list of column names
together with positional rows of scalar values.  Pure functions of the
source are translated to Lean functions; the in-place mutation performed
by clean_and_transform on its argument (reassigning the columns attribute)
is made explicit by returning the post-call state of the argument as a
second component.  Pandas NaN/NaT and absent cells are modelled by a
single missing marker, and the pandas elementwise equality semantics
(missing compares unequal to everything, including itself) is captured by
valueEq.
-/

/-- Scalar cell value of a record: a string, a number (monetary amounts are
modelled exactly, as integers in minor units), a parsed canonical date, or
the missing marker standing for pandas NaN/NaT and for absent cells. -/
inductive Value where
  | str : String → Value
  | num : Int → Value
  | date : Int → Value
  | missing : Value
deriving DecidableEq

/-- A tabular record set: column names plus positional rows.  Models a
pandas DataFrame as used by main.py. -/
structure DataFrame where
  columns : List String
  rows : List (List Value)
deriving DecidableEq

/-- Value of the first column named c in a positionally aligned row;
missing when the column is absent (models reading a cell of a frame). -/
def rowVal : List String → List Value → String → Value
  | c' :: cs, v :: vs, c => if c' = c then v else rowVal cs vs c
  | _, _, _ => Value.missing

/-- Apply f to every cell of a row lying in a column named c. -/
def setColRow (c : String) (f : Value → Value) : List String → List Value → List Value
  | c' :: cs, v :: vs => (if c' = c then f v else v) :: setColRow c f cs vs
  | _, vs => vs

/-- Columnwise update of a frame: models the assignment df[col] = f(df[col]). -/
def setCol (df : DataFrame) (c : String) (f : Value → Value) : DataFrame :=
  ⟨df.columns, df.rows.map (setColRow c f df.columns)⟩

/-- The values of column c, top to bottom. -/
def getColValues (df : DataFrame) (c : String) : List Value :=
  df.rows.map (fun r => rowVal df.columns r c)

/-- Whitespace recognizer used by the str.strip model. -/
def isSpaceChar (c : Char) : Bool :=
  c = ' ' || c = '\t' || c = '\n' || c = '\r'

/-- ASCII lower-casing of one character, as applied by str.lower. -/
def lowerChar (c : Char) : Char :=
  if 'A' ≤ c ∧ c ≤ 'Z' then Char.ofNat (c.toNat + 32) else c

/-- Model of columns.str.strip().str.lower() applied to one column name. -/
def lowerStrip (s : String) : String :=
  ⟨(((s.data.dropWhile isSpaceChar).reverse.dropWhile isSpaceChar).reverse).map lowerChar⟩

/-- Parse a nonempty all-digit character run as a natural number. -/
def parseDigits (cs : List Char) : Option Nat :=
  if cs ≠ [] ∧ cs.all Char.isDigit then
    some (cs.foldl (fun n c => n * 10 + (c.toNat - 48)) 0)
  else none

/-- Executable stand-in for the date parser invoked through
pd.to_datetime: accepts ISO yyyy-mm-dd strings and returns a canonical
date ordinal; any other string fails to parse. -/
def parseDate (s : String) : Option Int :=
  match s.data.splitOn '-' with
  | [y, m, d] =>
    match parseDigits y, parseDigits m, parseDigits d with
    | some yn, some mn, some dn =>
      if y.length = 4 ∧ 1 ≤ mn ∧ mn ≤ 12 ∧ 1 ≤ dn ∧ dn ≤ 31 then
        some (Int.ofNat (yn * 10000 + mn * 100 + dn))
      else none
    | _, _, _ => none
  | _ => none

/-- Model of pd.to_datetime(value, errors =coerce) on one cell: dates and
missing values pass through, numbers are read as epoch instants, strings
are parsed, and a parse failure coerces to the missing marker (NaT). -/
def toDatetime : Value → Value
  | Value.date d => Value.date d
  | Value.num n => Value.date n
  | Value.missing => Value.missing
  | Value.str s =>
    match parseDate s with
    | some d => Value.date d
    | none => Value.missing

/-- Pandas elementwise equality: the missing marker (NaN) is unequal to
every value, itself included; otherwise structural equality. -/
def valueEq : Value → Value → Bool
  | Value.missing, _ => false
  | _, Value.missing => false
  | a, b => a == b

/-- Dictionary rename of one column name: mapped names are replaced,
unmapped names pass through (models df.rename(columns = column_map)). -/
def renameCols (m : List (String × String)) (c : String) : String :=
  (m.lookup c).getD c

/-- First stage of clean_and_transform: the in-place reassignment
df.columns = df.columns.str.strip().str.lower().  This is the state the
frame of the caller is left in after the call. -/
def lowerStripStage (df : DataFrame) : DataFrame :=
  ⟨df.columns.map lowerStrip, df.rows⟩

/-- Second stage: df.rename(columns = column_map), producing a new frame. -/
def renameStage (df : DataFrame) (m : List (String × String)) : DataFrame :=
  ⟨df.columns.map (renameCols m), df.rows⟩

/-- Third stage: for each designated date column present in the frame,
coerce its values with toDatetime. -/
def coerceStage (df : DataFrame) (date_cols : List String) : DataFrame :=
  date_cols.foldl (fun acc c => if c ∈ acc.columns then setCol acc c toDatetime else acc) df

/-- Model of clean_and_transform(df, column_map, date_columns).  The first
component is the returned frame; the second component is the state of the
frame of the caller after the call (its columns were mutated in place by the
first line of the function, while rename produced a fresh copy, so the
rows of the caller are untouched but its column names are not). -/
def clean_and_transform (df : DataFrame) (column_map : List (String × String))
    (date_cols : List String) : DataFrame × DataFrame :=
  let mutated := lowerStripStage df
  (coerceStage (renameStage mutated column_map) date_cols, mutated)

/-- Join-key values of a frame, row by row. -/
def dfKeys (df : DataFrame) (key : String) : List Value :=
  df.rows.map (fun r => rowVal df.columns r key)

/-- Report rows whose key equals k. -/
def matchesFor (csv_df : DataFrame) (key : String) (k : Value) : List (List Value) :=
  csv_df.rows.filter (fun rr => decide (rowVal csv_df.columns rr key = k))

/-- Joined row emitted for a ledger row whose key has no report match:
ledger cells, missing fillers for the report columns, left_only tag. -/
def mkLeftRow (csv_df : DataFrame) (key : String) (lr : List Value) : List Value :=
  lr ++ (csv_df.columns.filter (fun c => decide (c ≠ key))).map (fun _ => Value.missing)
    ++ [Value.str "left_only"]

/-- Joined row emitted for a matched ledger/report row pair. -/
def mkBothRow (csv_df : DataFrame) (key : String) (lr rr : List Value) : List Value :=
  lr ++ (csv_df.columns.filter (fun c => decide (c ≠ key))).map (fun c => rowVal csv_df.columns rr c)
    ++ [Value.str "both"]

/-- Joined row emitted for a report row whose key has no ledger match:
the key value in the key position, missing fillers for the other ledger
columns, the report cells, right_only tag. -/
def mkRightRow (dbCols : List String) (csv_df : DataFrame) (key : String) (rr : List Value) : List Value :=
  dbCols.map (fun c => if c = key then rowVal csv_df.columns rr key else Value.missing)
    ++ (csv_df.columns.filter (fun c => decide (c ≠ key))).map (fun c => rowVal csv_df.columns rr c)
    ++ [Value.str "right_only"]

/-- Model of merge_dataframes: pd.merge(db_df, csv_df, how = outer,
key = key, suffixes = (_db, _csv), indicator = True).  Column names shared
by both frames (other than the key) are suffixed key both sides; the key
appears once.  Every output row ends with the _merge indicator column.
Left rows are emitted in order (matched left rows once per matching report
row, unmatched left rows once with left_only), followed by the unmatched
report rows with right_only. -/
def merge_dataframes (db_df csv_df : DataFrame) (key : String) : DataFrame :=
  ⟨db_df.columns.map (fun c => if c ≠ key ∧ c ∈ csv_df.columns then c ++ "_db" else c)
    ++ (csv_df.columns.filter (fun c => decide (c ≠ key))).map
        (fun c => if c ∈ db_df.columns then c ++ "_csv" else c)
    ++ ["_merge"],
   (db_df.rows.flatMap (fun lr =>
      let ms := matchesFor csv_df key (rowVal db_df.columns lr key)
      if ms.isEmpty then [mkLeftRow csv_df key lr]
      else ms.map (fun rr => mkBothRow csv_df key lr rr)))
    ++ ((csv_df.rows.filter (fun rr => decide (rowVal csv_df.columns rr key ∉ dfKeys db_df key))).map
        (mkRightRow db_df.columns csv_df key))⟩

/-- The status column candidates probed by identify_discrepancies, in
precedence order. -/
def status_candidates : List String := ["status", "status_db", "status_csv"]

/-- The four discrepancy buckets returned by identify_discrepancies, plus
a flag recording whether the no-status-column warning was logged. -/
structure Discrepancies where
  missing_in_processor : List (List Value)
  missing_in_db : List (List Value)
  amount_mismatches : List (List Value)
  failed_payments : List (List Value)
  no_status_warning : Bool
deriving DecidableEq

/-- Model of identify_discrepancies(merged_df, amount_col_db,
amount_col_csv, status_col_db).  The three provenance buckets filter over
the _merge indicator; amount_mismatches additionally requires the pandas
inequality of the two side-qualified amounts.  The failed-payments bucket
uses the first status candidate column present in the merged frame; when
none is present it is the empty frame slice and a warning is logged.  The
status_col_db parameter is accepted but, as in the source, never used. -/
def identify_discrepancies (merged_df : DataFrame)
    (amount_col_db amount_col_csv status_col_db : String) : Discrepancies :=
  let mp := merged_df.rows.filter
    (fun r => valueEq (rowVal merged_df.columns r "_merge") (Value.str "left_only"))
  let mdb := merged_df.rows.filter
    (fun r => valueEq (rowVal merged_df.columns r "_merge") (Value.str "right_only"))
  let am := merged_df.rows.filter
    (fun r => valueEq (rowVal merged_df.columns r "_merge") (Value.str "both")
      && !(valueEq (rowVal merged_df.columns r amount_col_db)
            (rowVal merged_df.columns r amount_col_csv)))
  let status_col := status_candidates.find? (fun c => decide (c ∈ merged_df.columns))
  let fp := match status_col with
    | some c => merged_df.rows.filter
        (fun r => valueEq (rowVal merged_df.columns r c) (Value.str "failed"))
    | none => ([] : List (List Value))
  ⟨mp, mdb, am, fp, status_col.isNone⟩

/-- Column rename mapping applied to the database frame in the main
workflow. -/
def db_column_map : List (String × String) :=
  [("transaction_id", "transaction_id"), ("amount", "amount"),
   ("status", "status"), ("date", "date")]

/-- Column rename mapping applied to the CSV frame in the main workflow. -/
def csv_column_map : List (String × String) :=
  [("payment_gateway_id", "transaction_id"), ("charged_amount", "amount"),
   ("status", "status"), ("transaction_date", "date")]

/-- Date columns normalized in the main workflow. -/
def date_columns : List String := ["date"]

/-- The join key used by the main workflow. -/
def merge_key : String := "transaction_id"

/-- pd.merge raises KeyError when the join column is absent from either
frame; otherwise it returns the outer join. -/
def pd_merge_checked (db_df csv_df : DataFrame) (key : String) : Except String DataFrame :=
  if key ∈ db_df.columns ∧ key ∈ csv_df.columns then
    Except.ok (merge_dataframes db_df csv_df key)
  else Except.error ("KeyError: " ++ key)

/-- Terminal outcome of one run of the script: either the report stage was
reached with the computed buckets, or an exception was caught by the
top-level handler (which only logs it). -/
inductive RunOutcome where
  | report : Discrepancies → RunOutcome
  | caughtTopLevel : String → RunOutcome
deriving DecidableEq

/-- Observable trace of one run of the main workflow. -/
structure RunTrace where
  missing_key_error_db : Bool
  missing_key_error_csv : Bool
  merge_attempted : Bool
  outcome : RunOutcome
  exit_code : Nat
deriving DecidableEq

/-- Model of the main block of main.py, from the point where the two
frames have been loaded.  The missing-merge-key checks only log an error;
control then proceeds unconditionally to the merge call, so the merge is
always attempted.  Any exception (such as the KeyError raised by the merge
when the key column is absent) is caught by the top-level handler, which
logs it; the script then falls off the end, so the process exit code is 0
key both paths. -/
def run_main (db_df csv_df : DataFrame) : RunTrace :=
  let db_clean := (clean_and_transform db_df db_column_map date_columns).1
  let csv_clean := (clean_and_transform csv_df csv_column_map date_columns).1
  let e1 := decide (merge_key ∉ db_clean.columns)
  let e2 := decide (merge_key ∉ csv_clean.columns)
  match pd_merge_checked db_clean csv_clean merge_key with
  | Except.error msg => ⟨e1, e2, true, RunOutcome.caughtTopLevel msg, 0⟩
  | Except.ok merged =>
    ⟨e1, e2, true,
     RunOutcome.report (identify_discrepancies merged "amount_db" "amount_csv" "status_db"), 0⟩

/-! ### Basic lemmas about cell values and column access -/

theorem valueEq_str_iff (v : Value) (t : String) :
    valueEq v (Value.str t) = true ↔ v = Value.str t := by
  cases v <;> simp [valueEq]

theorem valueEq_self (v : Value) (h : v ≠ Value.missing) : valueEq v v = true := by
  cases v <;> simp_all [valueEq]

theorem valueEq_missing_left (v : Value) : valueEq Value.missing v = false := by
  cases v <;> simp [valueEq]

theorem valueEq_missing_right (v : Value) : valueEq v Value.missing = false := by
  cases v <;> simp [valueEq]

theorem toDatetime_idem (v : Value) : toDatetime (toDatetime v) = toDatetime v := by
  cases v with
  | str s =>
    cases h : parseDate s <;> simp [toDatetime, h]
  | _ => rfl

theorem rowVal_not_mem : ∀ (cols : List String) (r : List Value) (c : String),
    c ∉ cols → rowVal cols r c = Value.missing
  | [], r, c, _ => by cases r <;> rfl
  | c' :: cs, [], c, h => rfl
  | c' :: cs, v :: vs, c, h => by
    have h1 : c' ≠ c := fun e => h (e ▸ List.mem_cons_self c' cs)
    simp [rowVal, h1, rowVal_not_mem cs vs c (fun hc => h (List.mem_cons_of_mem _ hc))]

theorem rowVal_setColRow (f : Value → Value) (hf : f Value.missing = Value.missing)
    (c c' : String) : ∀ (cols : List String) (r : List Value),
    rowVal cols (setColRow c f cols r) c'
      = if c' = c then f (rowVal cols r c') else rowVal cols r c'
  | [], r => by cases r <;> simp [setColRow, rowVal, hf]
  | c₀ :: cs, [] => by simp [setColRow, rowVal, hf]
  | c₀ :: cs, v :: vs => by
    by_cases h1 : c₀ = c'
    · subst h1
      by_cases h2 : c₀ = c <;> simp [setColRow, rowVal, h2]
    · simp [setColRow, rowVal, h1, rowVal_setColRow f hf c c' cs vs]

theorem getColValues_setCol (df : DataFrame) (d c : String) (f : Value → Value)
    (hf : f Value.missing = Value.missing) :
    getColValues (setCol df d f) c
      = if c = d then (getColValues df c).map f else getColValues df c := by
  by_cases h : c = d
  · subst h
    simp [getColValues, setCol, rowVal_setColRow f hf]
  · simp [getColValues, setCol, rowVal_setColRow f hf, h]

theorem getColValues_absent (df : DataFrame) (c : String) (h : c ∉ df.columns) :
    getColValues df c = df.rows.map (fun _ => Value.missing) := by
  unfold getColValues
  exact List.map_congr_left (fun r _ => rowVal_not_mem _ _ _ h)

theorem map_toDatetime_idem (l : List Value) :
    (l.map toDatetime).map toDatetime = l.map toDatetime := by
  rw [List.map_map]
  exact List.map_congr_left (fun v _ => toDatetime_idem v)

theorem coerceStage_cons (df : DataFrame) (d : String) (ds : List String) :
    coerceStage df (d :: ds)
      = coerceStage (if d ∈ df.columns then setCol df d toDatetime else df) ds := rfl

theorem coerceStage_columns : ∀ (dcols : List String) (df : DataFrame),
    (coerceStage df dcols).columns = df.columns
  | [], df => rfl
  | d :: ds, df => by
    rw [coerceStage_cons, coerceStage_columns ds]
    by_cases h : d ∈ df.columns <;> simp [h, setCol]

theorem getColValues_coerceStage_not_mem :
    ∀ (dcols : List String) (df : DataFrame) (c : String),
    c ∉ dcols → getColValues (coerceStage df dcols) c = getColValues df c
  | [], df, c, _ => rfl
  | d :: ds, df, c, h => by
    rw [coerceStage_cons]
    have hd : c ≠ d := fun e => h (e ▸ List.mem_cons_self d ds)
    rw [getColValues_coerceStage_not_mem ds _ c (fun hc => h (List.mem_cons_of_mem _ hc))]
    by_cases hm : d ∈ df.columns
    · simp [hm, getColValues_setCol df d c toDatetime rfl, hd]
    · simp [hm]

theorem getColValues_coerceStage_mem :
    ∀ (dcols : List String) (df : DataFrame) (c : String),
    c ∈ dcols → getColValues (coerceStage df dcols) c = (getColValues df c).map toDatetime
  | [], _, _, h => absurd h (List.not_mem_nil _)
  | d :: ds, df, c, h => by
    rw [coerceStage_cons]
    by_cases hdc : c = d
    · subst hdc
      by_cases hm : c ∈ df.columns
      · rw [if_pos hm]
        by_cases hds : c ∈ ds
        · rw [getColValues_coerceStage_mem ds _ c hds,
              getColValues_setCol df c c toDatetime rfl, if_pos rfl,
              map_toDatetime_idem]
        · rw [getColValues_coerceStage_not_mem ds _ c hds,
              getColValues_setCol df c c toDatetime rfl, if_pos rfl]
      · rw [if_neg hm]
        have habs := getColValues_absent df c hm
        by_cases hds : c ∈ ds
        · rw [getColValues_coerceStage_mem ds df c hds, habs, List.map_map]
        · rw [getColValues_coerceStage_not_mem ds df c hds, habs, List.map_map]
          rfl
      
    · have hds : c ∈ ds := (List.mem_cons.mp h).resolve_left hdc
      by_cases hm : d ∈ df.columns
      · rw [if_pos hm, getColValues_coerceStage_mem ds _ c hds,
            getColValues_setCol df d c toDatetime rfl, if_neg hdc]
      · rw [if_neg hm, getColValues_coerceStage_mem ds df c hds]

theorem setColRow_id (c : String) (f : Value → Value) :
    ∀ (cols : List String) (r : List Value),
    (∀ p ∈ cols.zip r, p.1 = c → f p.2 = p.2) → setColRow c f cols r = r
  | [], r, _ => by cases r <;> rfl
  | c₀ :: cs, [], _ => rfl
  | c₀ :: cs, v :: vs, h => by
    have htail := setColRow_id c f cs vs
      (fun p hp hc => h p (List.mem_cons_of_mem _ hp) hc)
    by_cases h0 : c₀ = c
    · have hv : f v = v := h (c₀, v) (List.mem_cons_self _ _) h0
      simp [setColRow, h0, hv, htail]
    · simp [setColRow, h0, htail]

/-- A frame whose designated date columns already hold canonical date
values (a parsed date or the missing marker): every cell lying in a date
column is a fixed point of the date coercion. -/
def DatesParsed (df : DataFrame) (dcols : List String) : Prop :=
  ∀ r ∈ df.rows, ∀ p ∈ df.columns.zip r, p.1 ∈ dcols → toDatetime p.2 = p.2

instance (df : DataFrame) (dcols : List String) : Decidable (DatesParsed df dcols) := by
  unfold DatesParsed
  infer_instance

theorem coerceStage_id : ∀ (dcols : List String) (df : DataFrame),
    DatesParsed df dcols → coerceStage df dcols = df
  | [], df, _ => rfl
  | d :: ds, df, h => by
    rw [coerceStage_cons]
    have hstep : (if d ∈ df.columns then setCol df d toDatetime else df) = df := by
      by_cases hm : d ∈ df.columns
      · rw [if_pos hm]
        unfold setCol
        cases df with
        | mk cols rows =>
          simp only [DataFrame.mk.injEq, true_and]
          calc rows.map (setColRow d toDatetime cols)
              = rows.map id := List.map_congr_left (fun r hr =>
                  setColRow_id d toDatetime cols r
                    (fun p hp hpd => h r hr p hp (hpd ▸ List.mem_cons_self d ds)))
            _ = rows := List.map_id rows
      · rw [if_neg hm]
    rw [hstep]
    exact coerceStage_id ds df
      (fun r hr p hp hpd => h r hr p hp (List.mem_cons_of_mem _ hpd))

/-! ### C6 - Normalizer frame effect -/

/-- Input frame for the C6 counterexample: one column whose raw name
carries surrounding whitespace and an upper-case letter. -/
def c6_frame : DataFrame := ⟨[" Amount "], [[Value.num 500]]⟩

/-- C6 counterexample: clean_and_transform is claimed to have no side
effects on the original record set, field names included.  On a frame with
the raw column name " Amount " the call leaves the frame of the caller with the
column name "amount": the post-call state of the argument differs from its
pre-call state. -/
theorem c6_counterexample : (clean_and_transform c6_frame [] []).2 ≠ c6_frame := by
  decide

/-- C6 (amended): clean_and_transform returns a new record set and leaves
the row values of the original unchanged, but it mutates its field
names in place, replacing each by its trimmed and lower-cased form (the
first line of the function reassigns the columns attribute of its
argument; the subsequent rename works on a fresh copy). -/
theorem c6_mutation_of_original (df : DataFrame) (column_map : List (String × String))
    (dcols : List String) :
    (clean_and_transform df column_map dcols).2.rows = df.rows
    ∧ (clean_and_transform df column_map dcols).2.columns = df.columns.map lowerStrip :=
  ⟨rfl, rfl⟩

/-! ### C7 - failed date parses become the missing marker -/

/-- C7: for every input frame, rename mapping and date-column list, each
designated date column of the normalized output is the elementwise date
coercion of the corresponding column of the renamed frame, and the coercion sends every
string that fails to parse to the explicit missing marker.  Normalization
is a total function: it completes over partially malformed input instead
of raising. -/
theorem c7_unparseable_dates_coerced (df : DataFrame) (column_map : List (String × String))
    (dcols : List String) (c : String) (hc : c ∈ dcols) :
    getColValues (clean_and_transform df column_map dcols).1 c
      = (getColValues (renameStage (lowerStripStage df) column_map) c).map toDatetime
    ∧ ∀ s, parseDate s = none → toDatetime (Value.str s) = Value.missing := by
  constructor
  · exact getColValues_coerceStage_mem dcols _ c hc
  · intro s hs
    simp [toDatetime, hs]

/-- Input frame for the C7 witness: a report-style frame whose date column
holds an unparseable string. -/
def c7_frame : DataFrame := ⟨["transaction_date"], [[Value.str "not-a-date"]]⟩

theorem c7_witness :
    ("date" ∈ date_columns)
    ∧ (getColValues (clean_and_transform c7_frame csv_column_map date_columns).1 "date"
        = (getColValues (renameStage (lowerStripStage c7_frame) csv_column_map) "date").map
            toDatetime
      ∧ ∀ s, parseDate s = none → toDatetime (Value.str s) = Value.missing) :=
  ⟨by decide,
   c7_unparseable_dates_coerced c7_frame csv_column_map date_columns "date" (by decide)⟩

/-! ### C9 - idempotence of normalization -/

/-- C9: normalizing an already-normalized record set is a no-op.  A frame
is in normalized form for a rename mapping and date-column list when every
column name is a fixed point of trimming and lower-casing, every column
name is left unchanged by the rename mapping (canonical names are the
targets, not the sources, of the mapping), and every cell in a designated
date column already holds a canonical date value.  On such a frame
clean_and_transform returns the frame itself, and the in-place column
mutation also leaves it unchanged. -/
theorem c9_normalization_idempotent (df : DataFrame) (column_map : List (String × String))
    (dcols : List String)
    (h1 : ∀ c ∈ df.columns, lowerStrip c = c)
    (h2 : ∀ c ∈ df.columns, renameCols column_map c = c)
    (h3 : DatesParsed df dcols) :
    clean_and_transform df column_map dcols = (df, df) := by
  unfold clean_and_transform
  have e1 : lowerStripStage df = df := by
    unfold lowerStripStage
    cases df with
    | mk cols rows =>
      simp only [DataFrame.mk.injEq, and_true]
      exact (List.map_congr_left h1).trans (List.map_id cols)
  rw [e1]
  have e2 : renameStage df column_map = df := by
    unfold renameStage
    cases df with
    | mk cols rows =>
      simp only [DataFrame.mk.injEq, and_true]
      exact (List.map_congr_left h2).trans (List.map_id cols)
  show (coerceStage (renameStage df column_map) dcols, df) = (df, df)
  rw [e2, coerceStage_id dcols df h3]

/-- Input frame for the C9 witness: canonical column names and a parsed
date cell, normalized with the report rename mapping of the main
workflow. -/
def c9_frame : DataFrame :=
  ⟨["transaction_id", "amount", "status", "date"],
   [[Value.str "T1", Value.num 10000, Value.str "completed", Value.date 20240101]]⟩

theorem c9_witness :
    clean_and_transform c9_frame csv_column_map date_columns = (c9_frame, c9_frame) :=
  c9_normalization_idempotent c9_frame csv_column_map date_columns
    (by decide) (by decide) (by decide)

/-! ### C1 - the three provenance buckets of the Classifier -/

/-- C1: for every merged row set, a row is in missing_in_processor exactly
when its provenance tag (the _merge column) is left_only, in missing_in_db
exactly when the tag is right_only, and in amount_mismatches exactly when
the tag is both and the two side-qualified amounts are unequal under the
exact pandas comparison (no tolerance).  Consequently a row matched on
both sides whose amounts are equal (and present) lies in none of the three
buckets. -/
theorem c1_provenance_buckets (m : DataFrame) (adb acsv scol : String) (r : List Value)
    (hr : r ∈ m.rows) :
    (r ∈ (identify_discrepancies m adb acsv scol).missing_in_processor
      ↔ rowVal m.columns r "_merge" = Value.str "left_only")
    ∧ (r ∈ (identify_discrepancies m adb acsv scol).missing_in_db
      ↔ rowVal m.columns r "_merge" = Value.str "right_only")
    ∧ (r ∈ (identify_discrepancies m adb acsv scol).amount_mismatches
      ↔ rowVal m.columns r "_merge" = Value.str "both"
        ∧ valueEq (rowVal m.columns r adb) (rowVal m.columns r acsv) = false)
    ∧ (rowVal m.columns r "_merge" = Value.str "both"
        → rowVal m.columns r adb = rowVal m.columns r acsv
        → rowVal m.columns r adb ≠ Value.missing
        → r ∉ (identify_discrepancies m adb acsv scol).missing_in_processor
          ∧ r ∉ (identify_discrepancies m adb acsv scol).missing_in_db
          ∧ r ∉ (identify_discrepancies m adb acsv scol).amount_mismatches) := by
  refine ⟨?_, ?_, ?_, ?_⟩
  · simp [identify_discrepancies, List.mem_filter, hr, valueEq_str_iff]
  · simp [identify_discrepancies, List.mem_filter, hr, valueEq_str_iff]
  · simp [identify_discrepancies, List.mem_filter, hr, valueEq_str_iff,
      Bool.and_eq_true]
  · intro htag heq hne
    have hveq : valueEq (rowVal m.columns r adb) (rowVal m.columns r acsv) = true := by
      rw [← heq]
      exact valueEq_self _ hne
    refine ⟨?_, ?_, ?_⟩ <;>
      simp [identify_discrepancies, List.mem_filter, hr, valueEq_str_iff, htag, hveq,
        Bool.and_eq_true]

/-- Merged frame for the C1 witness: one matched row with equal amounts
and one ledger-only row. -/
def c1_frame : DataFrame :=
  ⟨["transaction_id", "amount_db", "amount_csv", "_merge"],
   [[Value.str "T1", Value.num 10000, Value.num 10000, Value.str "both"],
    [Value.str "T3", Value.num 2000, Value.missing, Value.str "left_only"]]⟩

/-- The matched row of the C1 witness frame. -/
def c1_row : List Value :=
  [Value.str "T1", Value.num 10000, Value.num 10000, Value.str "both"]

theorem c1_witness :
    (c1_row ∈ (identify_discrepancies c1_frame "amount_db" "amount_csv" "status_db").missing_in_processor
      ↔ rowVal c1_frame.columns c1_row "_merge" = Value.str "left_only")
    ∧ (c1_row ∈ (identify_discrepancies c1_frame "amount_db" "amount_csv" "status_db").missing_in_db
      ↔ rowVal c1_frame.columns c1_row "_merge" = Value.str "right_only")
    ∧ (c1_row ∈ (identify_discrepancies c1_frame "amount_db" "amount_csv" "status_db").amount_mismatches
      ↔ rowVal c1_frame.columns c1_row "_merge" = Value.str "both"
        ∧ valueEq (rowVal c1_frame.columns c1_row "amount_db")
            (rowVal c1_frame.columns c1_row "amount_csv") = false)
    ∧ (rowVal c1_frame.columns c1_row "_merge" = Value.str "both"
        → rowVal c1_frame.columns c1_row "amount_db" = rowVal c1_frame.columns c1_row "amount_csv"
        → rowVal c1_frame.columns c1_row "amount_db" ≠ Value.missing
        → c1_row ∉ (identify_discrepancies c1_frame "amount_db" "amount_csv" "status_db").missing_in_processor
          ∧ c1_row ∉ (identify_discrepancies c1_frame "amount_db" "amount_csv" "status_db").missing_in_db
          ∧ c1_row ∉ (identify_discrepancies c1_frame "amount_db" "amount_csv" "status_db").amount_mismatches) :=
  c1_provenance_buckets c1_frame "amount_db" "amount_csv" "status_db" c1_row (by decide)

/-! ### C2 - the failed-payments bucket -/

/-- Ledger frame for the C2 counterexample: T5 with status completed. -/
def c2_db_frame : DataFrame :=
  ⟨["transaction_id", "amount", "status"],
   [[Value.str "T5", Value.num 10000, Value.str "completed"]]⟩

/-- Report frame for the C2 counterexample: T5 with status failed and the
same amount as the ledger. -/
def c2_csv_frame : DataFrame :=
  ⟨["transaction_id", "amount", "status"],
   [[Value.str "T5", Value.num 10000, Value.str "failed"]]⟩

/-- C2 counterexample: the ledger has key T5 and the report has T5 with
status failed, yet failed_payments is empty.  Both sides carry a status
column, so the merged frame has status_db and status_csv; the classifier
locates only the first candidate present (status_db, here "completed") and
never consults status_csv, so the row whose report status is "failed" is
not placed in the bucket, contradicting the claim that T5 appears
regardless of amount equality. -/
theorem c2_counterexample :
    (merge_dataframes c2_db_frame c2_csv_frame "transaction_id").rows
      = [[Value.str "T5", Value.num 10000, Value.str "completed",
          Value.num 10000, Value.str "failed", Value.str "both"]]
    ∧ (identify_discrepancies (merge_dataframes c2_db_frame c2_csv_frame "transaction_id")
        "amount_db" "amount_csv" "status_db").failed_payments = [] := by
  decide

/-- C2 (amended): failed_payments contains exactly the rows whose value in
the single located status column equals "failed", regardless of provenance
and amounts, where the located column is the first of status, status_db,
status_csv present in the merged frame.  A both-side row whose report
status is "failed" therefore appears only when that located column (the
ledger-side status_db, when both sides carry a status) holds "failed". -/
theorem c2_failed_payments_located_column (m : DataFrame) (adb acsv scol c : String)
    (r : List Value)
    (hc : status_candidates.find? (fun x => decide (x ∈ m.columns)) = some c)
    (hr : r ∈ m.rows) :
    r ∈ (identify_discrepancies m adb acsv scol).failed_payments
      ↔ rowVal m.columns r c = Value.str "failed" := by
  simp [identify_discrepancies, hc, List.mem_filter, hr, valueEq_str_iff]

/-- Merged frame for the C2 witness: status_db located, value failed. -/
def c2_frame_w : DataFrame :=
  ⟨["transaction_id", "amount_db", "status_db", "amount_csv", "status_csv", "_merge"],
   [[Value.str "T6", Value.num 100, Value.str "failed",
     Value.num 200, Value.str "completed", Value.str "both"]]⟩

/-- The row of the C2 witness frame. -/
def c2_row_w : List Value :=
  [Value.str "T6", Value.num 100, Value.str "failed",
   Value.num 200, Value.str "completed", Value.str "both"]

theorem c2_witness :
    (status_candidates.find? (fun x => decide (x ∈ c2_frame_w.columns)) = some "status_db")
    ∧ (c2_row_w ∈ (identify_discrepancies c2_frame_w "amount_db" "amount_csv" "status_db").failed_payments
        ↔ rowVal c2_frame_w.columns c2_row_w "status_db" = Value.str "failed") :=
  ⟨by decide,
   c2_failed_payments_located_column c2_frame_w "amount_db" "amount_csv" "status_db"
     "status_db" c2_row_w (by decide) (by decide)⟩

/-! ### C8 - no status column located -/

/-- C8: when no status candidate column (status, status_db, status_csv) is
present in the merged frame, identify_discrepancies returns the empty
failed_payments bucket and logs the warning instead of raising; being a
total function, it completes and the gap is reported. -/
theorem c8_no_status_column (m : DataFrame) (adb acsv scol : String)
    (h1 : "status" ∉ m.columns) (h2 : "status_db" ∉ m.columns)
    (h3 : "status_csv" ∉ m.columns) :
    (identify_discrepancies m adb acsv scol).failed_payments = []
    ∧ (identify_discrepancies m adb acsv scol).no_status_warning = true := by
  have hfind : status_candidates.find? (fun c => decide (c ∈ m.columns)) = none := by
    rw [List.find?_eq_none]
    intro x hx
    simp only [status_candidates, List.mem_cons, List.not_mem_nil, or_false] at hx
    rcases hx with rfl | rfl | rfl <;> simp [h1, h2, h3]
  constructor <;> simp [identify_discrepancies, hfind]

/-- Merged frame for the C8 witness: no status column anywhere. -/
def c8_frame : DataFrame :=
  ⟨["transaction_id", "amount_db", "amount_csv", "_merge"],
   [[Value.str "T1", Value.num 100, Value.num 100, Value.str "both"]]⟩

theorem c8_witness :
    (identify_discrepancies c8_frame "amount_db" "amount_csv" "status_db").failed_payments = []
    ∧ (identify_discrepancies c8_frame "amount_db" "amount_csv" "status_db").no_status_warning
        = true :=
  c8_no_status_column c8_frame "amount_db" "amount_csv" "status_db"
    (by decide) (by decide) (by decide)

/-! ### C10 - missing amounts land in amount_mismatches -/

/-- C10: a merged row tagged both whose side-qualified amount is missing
on at least one side is placed in amount_mismatches: the pandas inequality
treats a missing value (NaN) as unequal to every value, including another
missing value. -/
theorem c10_missing_amount_mismatch (m : DataFrame) (adb acsv scol : String)
    (r : List Value) (hr : r ∈ m.rows)
    (htag : rowVal m.columns r "_merge" = Value.str "both")
    (hmiss : rowVal m.columns r adb = Value.missing
      ∨ rowVal m.columns r acsv = Value.missing) :
    r ∈ (identify_discrepancies m adb acsv scol).amount_mismatches := by
  have hne : valueEq (rowVal m.columns r adb) (rowVal m.columns r acsv) = false := by
    rcases hmiss with h | h
    · rw [h]; exact valueEq_missing_left _
    · rw [h]; exact valueEq_missing_right _
  have h1 : valueEq (rowVal m.columns r "_merge") (Value.str "both") = true := by
    rw [htag]; rfl
  simp [identify_discrepancies, List.mem_filter, hr, h1, hne]

/-- Merged frame for the C10 witness: a both-tagged row with a missing
report-side amount. -/
def c10_frame : DataFrame :=
  ⟨["transaction_id", "amount_db", "amount_csv", "_merge"],
   [[Value.str "T9", Value.num 100, Value.missing, Value.str "both"]]⟩

/-- The row of the C10 witness frame. -/
def c10_row : List Value :=
  [Value.str "T9", Value.num 100, Value.missing, Value.str "both"]

theorem c10_witness :
    c10_row ∈ (identify_discrepancies c10_frame "amount_db" "amount_csv" "status_db").amount_mismatches :=
  c10_missing_amount_mismatch c10_frame "amount_db" "amount_csv" "status_db" c10_row
    (by decide) (by decide) (Or.inr (by decide))

/-! ### C3 - provenance tags of the Matcher -/

theorem getLast?_mkLeftRow (csv_df : DataFrame) (key : String) (lr : List Value) :
    (mkLeftRow csv_df key lr).getLast? = some (Value.str "left_only") := by
  unfold mkLeftRow
  exact List.getLast?_concat _

theorem getLast?_mkBothRow (csv_df : DataFrame) (key : String) (lr rr : List Value) :
    (mkBothRow csv_df key lr rr).getLast? = some (Value.str "both") := by
  unfold mkBothRow
  exact List.getLast?_concat _

theorem getLast?_mkRightRow (dbCols : List String) (csv_df : DataFrame) (key : String)
    (rr : List Value) :
    (mkRightRow dbCols csv_df key rr).getLast? = some (Value.str "right_only") := by
  unfold mkRightRow
  exact List.getLast?_concat _

theorem matchesFor_eq_nil_iff (csv_df : DataFrame) (key : String) (k : Value) :
    matchesFor csv_df key k = [] ↔ k ∉ dfKeys csv_df key := by
  unfold matchesFor dfKeys
  rw [List.filter_eq_nil_iff]
  constructor
  · intro h hk
    obtain ⟨rr, hrr, hkey⟩ := List.mem_map.mp hk
    exact h rr hrr (by simp [hkey])
  · intro h rr hrr
    simp only [decide_eq_true_eq]
    intro he
    exact h (List.mem_map.mpr ⟨rr, hrr, he⟩)

/-- Every row of the outer join originates from one of the three join
cases: a ledger row whose key is absent from the report (tag left_only), a
matched ledger/report pair sharing a key (tag both), or a report row whose
key is absent from the ledger (tag right_only). -/
theorem merge_rows_mem (db_df csv_df : DataFrame) (key : String) (r : List Value)
    (hr : r ∈ (merge_dataframes db_df csv_df key).rows) :
    (∃ lr, lr ∈ db_df.rows ∧ r = mkLeftRow csv_df key lr
      ∧ rowVal db_df.columns lr key ∉ dfKeys csv_df key) ∨
    (∃ lr rr, lr ∈ db_df.rows ∧ rr ∈ csv_df.rows ∧ r = mkBothRow csv_df key lr rr
      ∧ rowVal csv_df.columns rr key = rowVal db_df.columns lr key) ∨
    (∃ rr, rr ∈ csv_df.rows ∧ r = mkRightRow db_df.columns csv_df key rr
      ∧ rowVal csv_df.columns rr key ∉ dfKeys db_df key) := by
  simp only [merge_dataframes, List.mem_append, List.mem_flatMap] at hr
  rcases hr with ⟨lr, hlr, hin⟩ | hrt
  · by_cases hnil : matchesFor csv_df key (rowVal db_df.columns lr key) = []
    · left
      rw [hnil] at hin
      simp only [List.isEmpty_nil, if_true] at hin
      refine ⟨lr, hlr, ?_, (matchesFor_eq_nil_iff _ _ _).mp hnil⟩
      simpa using hin
    · right; left
      have hemp : (matchesFor csv_df key (rowVal db_df.columns lr key)).isEmpty = false := by
        cases h : matchesFor csv_df key (rowVal db_df.columns lr key) with
        | nil => exact absurd h hnil
        | cons a t => rfl
      rw [hemp] at hin
      simp only [Bool.false_eq_true, if_false, List.mem_map] at hin
      obtain ⟨rr, hrrm, hreq⟩ := hin
      have hrrm' := List.mem_filter.mp hrrm
      exact ⟨lr, rr, hlr, hrrm'.1, hreq.symm, by simpa using hrrm'.2⟩
  · right; right
    rw [List.mem_map] at hrt
    obtain ⟨rr, hrrm, hreq⟩ := hrt
    have hrrm' := List.mem_filter.mp hrrm
    exact ⟨rr, hrrm'.1, hreq.symm, by simpa using hrrm'.2⟩

theorem flatMap_eq_map_of_singleton {α β : Type} (l : List α) (f : α → List β) (g : α → β)
    (h : ∀ a ∈ l, f a = [g a]) : l.flatMap f = l.map g := by
  induction l with
  | nil => rfl
  | cons a t ih =>
    rw [List.flatMap_cons, h a (List.mem_cons_self a t), List.map_cons,
      ih (fun x hx => h x (List.mem_cons_of_mem _ hx))]
    rfl

/-- With disjoint key sets the outer join degenerates: every ledger row is
emitted as a left_only row and every report row as a right_only row. -/
theorem merge_rows_of_disjoint (db_df csv_df : DataFrame) (key : String)
    (hdisj : ∀ k ∈ dfKeys db_df key, k ∉ dfKeys csv_df key) :
    (merge_dataframes db_df csv_df key).rows
      = db_df.rows.map (mkLeftRow csv_df key)
        ++ csv_df.rows.map (mkRightRow db_df.columns csv_df key) := by
  simp only [merge_dataframes]
  congr 1
  · apply flatMap_eq_map_of_singleton
    intro lr hlr
    have hk : rowVal db_df.columns lr key ∈ dfKeys db_df key :=
      List.mem_map_of_mem _ hlr
    have hnil : matchesFor csv_df key (rowVal db_df.columns lr key) = [] :=
      (matchesFor_eq_nil_iff _ _ _).mpr (hdisj _ hk)
    rw [hnil]
    rfl
  · have hfull : csv_df.rows.filter
        (fun rr => decide (rowVal csv_df.columns rr key ∉ dfKeys db_df key))
        = csv_df.rows := by
      rw [List.filter_eq_self]
      intro rr hrr
      simp only [decide_eq_true_eq]
      intro hin
      exact hdisj _ hin (List.mem_map_of_mem _ hrr)
    rw [hfull]

/-- C3 (amended): every row of the outer join carries exactly one
provenance tag (the final _merge cell), and the tag is computed strictly
from key presence on each side: a left_only row stems from a ledger row
whose key is absent from the report, a both row from a ledger/report pair
sharing a key present on both sides, a right_only row from a report row
whose key is absent from the ledger.  When in addition the two key lists
are duplicate-free and disjoint, the join yields exactly one left_only row
per distinct ledger key, one right_only row per distinct report key, and
no rows tagged both.  (Without the duplicate-freeness hypothesis the
counts are row counts, not key-set cardinalities.) -/
theorem c3_provenance_and_counts (db_df csv_df : DataFrame) (key : String) :
    (∀ r ∈ (merge_dataframes db_df csv_df key).rows,
      (r.getLast? = some (Value.str "left_only")
        ∧ ∃ lr, lr ∈ db_df.rows ∧ r = mkLeftRow csv_df key lr
          ∧ rowVal db_df.columns lr key ∈ dfKeys db_df key
          ∧ rowVal db_df.columns lr key ∉ dfKeys csv_df key) ∨
      (r.getLast? = some (Value.str "both")
        ∧ ∃ lr rr, lr ∈ db_df.rows ∧ rr ∈ csv_df.rows ∧ r = mkBothRow csv_df key lr rr
          ∧ rowVal db_df.columns lr key ∈ dfKeys db_df key
          ∧ rowVal db_df.columns lr key ∈ dfKeys csv_df key) ∨
      (r.getLast? = some (Value.str "right_only")
        ∧ ∃ rr, rr ∈ csv_df.rows ∧ r = mkRightRow db_df.columns csv_df key rr
          ∧ rowVal csv_df.columns rr key ∈ dfKeys csv_df key
          ∧ rowVal csv_df.columns rr key ∉ dfKeys db_df key))
    ∧ (((dfKeys db_df key).Nodup ∧ (dfKeys csv_df key).Nodup
          ∧ ∀ k ∈ dfKeys db_df key, k ∉ dfKeys csv_df key)
        → ((merge_dataframes db_df csv_df key).rows.filter
              (fun r => decide (r.getLast? = some (Value.str "left_only")))).length
            = (dfKeys db_df key).dedup.length
          ∧ ((merge_dataframes db_df csv_df key).rows.filter
              (fun r => decide (r.getLast? = some (Value.str "right_only")))).length
            = (dfKeys csv_df key).dedup.length
          ∧ ((merge_dataframes db_df csv_df key).rows.filter
              (fun r => decide (r.getLast? = some (Value.str "both")))).length = 0) := by
  constructor
  · intro r hr
    rcases merge_rows_mem db_df csv_df key r hr with
      ⟨lr, hlr, rfl, hnk⟩ | ⟨lr, rr, hlr, hrr, rfl, hke⟩ | ⟨rr, hrr, rfl, hnk⟩
    · exact Or.inl ⟨getLast?_mkLeftRow _ _ _, lr, hlr, rfl,
        List.mem_map_of_mem _ hlr, hnk⟩
    · refine Or.inr (Or.inl ⟨getLast?_mkBothRow _ _ _ _, lr, rr, hlr, hrr, rfl,
        List.mem_map_of_mem _ hlr, ?_⟩)
      rw [← hke]
      exact List.mem_map_of_mem _ hrr
    · exact Or.inr (Or.inr ⟨getLast?_mkRightRow _ _ _ _, rr, hrr, rfl,
        List.mem_map_of_mem _ hrr, hnk⟩)
  · rintro ⟨hL, hR, hdisj⟩
    rw [merge_rows_of_disjoint db_df csv_df key hdisj]
    have eL1 : (db_df.rows.map (mkLeftRow csv_df key)).filter
        (fun r => decide (r.getLast? = some (Value.str "left_only")))
        = db_df.rows.map (mkLeftRow csv_df key) := by
      rw [List.filter_eq_self]
      intro r hrm
      obtain ⟨lr, _, rfl⟩ := List.mem_map.mp hrm
      rw [getLast?_mkLeftRow]
      decide
    have eL2 : (csv_df.rows.map (mkRightRow db_df.columns csv_df key)).filter
        (fun r => decide (r.getLast? = some (Value.str "left_only"))) = [] := by
      rw [List.filter_eq_nil_iff]
      intro r hrm
      obtain ⟨rr, _, rfl⟩ := List.mem_map.mp hrm
      rw [getLast?_mkRightRow]
      decide
    have eR1 : (db_df.rows.map (mkLeftRow csv_df key)).filter
        (fun r => decide (r.getLast? = some (Value.str "right_only"))) = [] := by
      rw [List.filter_eq_nil_iff]
      intro r hrm
      obtain ⟨lr, _, rfl⟩ := List.mem_map.mp hrm
      rw [getLast?_mkLeftRow]
      decide
    have eR2 : (csv_df.rows.map (mkRightRow db_df.columns csv_df key)).filter
        (fun r => decide (r.getLast? = some (Value.str "right_only")))
        = csv_df.rows.map (mkRightRow db_df.columns csv_df key) := by
      rw [List.filter_eq_self]
      intro r hrm
      obtain ⟨rr, _, rfl⟩ := List.mem_map.mp hrm
      rw [getLast?_mkRightRow]
      decide
    have eB1 : (db_df.rows.map (mkLeftRow csv_df key)).filter
        (fun r => decide (r.getLast? = some (Value.str "both"))) = [] := by
      rw [List.filter_eq_nil_iff]
      intro r hrm
      obtain ⟨lr, _, rfl⟩ := List.mem_map.mp hrm
      rw [getLast?_mkLeftRow]
      decide
    have eB2 : (csv_df.rows.map (mkRightRow db_df.columns csv_df key)).filter
        (fun r => decide (r.getLast? = some (Value.str "both"))) = [] := by
      rw [List.filter_eq_nil_iff]
      intro r hrm
      obtain ⟨rr, _, rfl⟩ := List.mem_map.mp hrm
      rw [getLast?_mkRightRow]
      decide
    have hlen1 : (dfKeys db_df key).dedup.length = db_df.rows.length := by
      rw [List.dedup_eq_self.mpr hL]
      simp [dfKeys]
    have hlen2 : (dfKeys csv_df key).dedup.length = csv_df.rows.length := by
      rw [List.dedup_eq_self.mpr hR]
      simp [dfKeys]
    refine ⟨?_, ?_, ?_⟩
    · rw [List.filter_append, eL1, eL2, hlen1]
      simp
    · rw [List.filter_append, eR1, eR2, hlen2]
      simp
    · rw [List.filter_append, eB1, eB2]
      rfl

/-- Ledger frame for the C3 witness: one row, key T3. -/
def c3_db_frame : DataFrame :=
  ⟨["transaction_id", "amount"], [[Value.str "T3", Value.num 2000]]⟩

/-- Report frame for the C3 witness: one row, key T4, disjoint from the
ledger keys. -/
def c3_csv_frame : DataFrame :=
  ⟨["transaction_id", "amount"], [[Value.str "T4", Value.num 1000]]⟩

theorem c3_witness :
    (∀ r ∈ (merge_dataframes c3_db_frame c3_csv_frame "transaction_id").rows,
      (r.getLast? = some (Value.str "left_only")
        ∧ ∃ lr, lr ∈ c3_db_frame.rows ∧ r = mkLeftRow c3_csv_frame "transaction_id" lr
          ∧ rowVal c3_db_frame.columns lr "transaction_id" ∈ dfKeys c3_db_frame "transaction_id"
          ∧ rowVal c3_db_frame.columns lr "transaction_id" ∉ dfKeys c3_csv_frame "transaction_id") ∨
      (r.getLast? = some (Value.str "both")
        ∧ ∃ lr rr, lr ∈ c3_db_frame.rows ∧ rr ∈ c3_csv_frame.rows
          ∧ r = mkBothRow c3_csv_frame "transaction_id" lr rr
          ∧ rowVal c3_db_frame.columns lr "transaction_id" ∈ dfKeys c3_db_frame "transaction_id"
          ∧ rowVal c3_db_frame.columns lr "transaction_id" ∈ dfKeys c3_csv_frame "transaction_id") ∨
      (r.getLast? = some (Value.str "right_only")
        ∧ ∃ rr, rr ∈ c3_csv_frame.rows
          ∧ r = mkRightRow c3_db_frame.columns c3_csv_frame "transaction_id" rr
          ∧ rowVal c3_csv_frame.columns rr "transaction_id" ∈ dfKeys c3_csv_frame "transaction_id"
          ∧ rowVal c3_csv_frame.columns rr "transaction_id" ∉ dfKeys c3_db_frame "transaction_id"))
    ∧ (((merge_dataframes c3_db_frame c3_csv_frame "transaction_id").rows.filter
          (fun r => decide (r.getLast? = some (Value.str "left_only")))).length
        = (dfKeys c3_db_frame "transaction_id").dedup.length
      ∧ ((merge_dataframes c3_db_frame c3_csv_frame "transaction_id").rows.filter
          (fun r => decide (r.getLast? = some (Value.str "right_only")))).length
        = (dfKeys c3_csv_frame "transaction_id").dedup.length
      ∧ ((merge_dataframes c3_db_frame c3_csv_frame "transaction_id").rows.filter
          (fun r => decide (r.getLast? = some (Value.str "both")))).length = 0) :=
  ⟨(c3_provenance_and_counts c3_db_frame c3_csv_frame "transaction_id").1,
   (c3_provenance_and_counts c3_db_frame c3_csv_frame "transaction_id").2 (by decide)⟩

/-- Ledger frame for the C3 counterexample: the same key A on two rows. -/
def c3_dup_db_frame : DataFrame :=
  ⟨["transaction_id"], [[Value.str "A"], [Value.str "A"]]⟩

/-- Report frame for the C3 counterexample: single key B, disjoint from
the ledger keys. -/
def c3_dup_csv_frame : DataFrame :=
  ⟨["transaction_id"], [[Value.str "B"]]⟩

/-- C3 counterexample: the claim promises exactly as many left_only rows
as the cardinality of the disjoint ledger key set L.  With the duplicate
ledger key A the key sets are L equal to the singleton A and R equal to
the singleton B (disjoint), yet the join emits two left_only rows, one per
ledger row, not one per distinct key. -/
theorem c3_counterexample :
    (dfKeys c3_dup_db_frame "transaction_id").dedup = [Value.str "A"]
    ∧ (dfKeys c3_dup_csv_frame "transaction_id").dedup = [Value.str "B"]
    ∧ ((merge_dataframes c3_dup_db_frame c3_dup_csv_frame "transaction_id").rows.filter
        (fun r => decide (r.getLast? = some (Value.str "left_only")))).length = 2 := by
  decide

/-! ### C4 and C5 - error handling of the main workflow -/

/-- Database frame for the C4 run: its raw key column is named txid, so
after normalization there is no transaction_id column. -/
def c4_db_frame : DataFrame :=
  ⟨["txid", "amount", "status", "date"],
   [[Value.str "T1", Value.num 10000, Value.str "completed", Value.str "2024-01-01"]]⟩

/-- CSV frame for the C4 run: well-formed report columns. -/
def c4_csv_frame : DataFrame :=
  ⟨["payment_gateway_id", "charged_amount", "status", "transaction_date"],
   [[Value.str "T1", Value.num 10000, Value.str "completed", Value.str "2024-01-01"]]⟩

/-- C4: on a run whose normalized database frame lacks the join key, the
workflow logs the missing-key error but does not abort: the merge is still
attempted, raises KeyError inside pandas, and that exception is what the
top-level handler catches.  This contradicts the claim that the run aborts
before the join and that merge_dataframes is never invoked on such
inputs. -/
theorem c4_merge_still_attempted :
    (run_main c4_db_frame c4_csv_frame).missing_key_error_db = true
    ∧ (run_main c4_db_frame c4_csv_frame).merge_attempted = true
    ∧ (run_main c4_db_frame c4_csv_frame).outcome
        = RunOutcome.caughtTopLevel "KeyError: transaction_id" := by
  decide

/-- Database frame for the C5 run: well-formed ledger columns. -/
def c5_db_frame : DataFrame :=
  ⟨["transaction_id", "amount", "status", "date"],
   [[Value.str "T1", Value.num 10000, Value.str "completed", Value.str "2024-01-01"]]⟩

/-- CSV frame for the C5 run: its raw key column is named gateway_ref, so
after normalization there is no transaction_id column and the merge
raises. -/
def c5_csv_frame : DataFrame :=
  ⟨["gateway_ref", "charged_amount", "status", "transaction_date"],
   [[Value.str "T1", Value.num 10000, Value.str "completed", Value.str "2024-01-01"]]⟩

/-- C5: an unexpected failure in the pipeline (here the KeyError raised by
the merge) is caught and logged by the top-level handler, and no report is
produced; but the script then falls off the end of the module, so the
process terminates with exit status 0, not the non-zero status the claim
requires. -/
theorem c5_exit_code_zero :
    (run_main c5_db_frame c5_csv_frame).outcome
      = RunOutcome.caughtTopLevel "KeyError: transaction_id"
    ∧ (run_main c5_db_frame c5_csv_frame).exit_code = 0 := by
  decide
